import Mathlib

/-!
Verification of the Superstore analytics dashboard (src/dashboard.py).

The dashboard issues fixed SQL queries (the queries dictionary, lines 65-133)
against a PostgreSQL database and renders the resulting relations.  We embed
the relational data model and the semantics of each query shallowly: relations
are lists of records, SQL NUMERIC is modelled as Rat, dates as integer day
numbers, GROUP BY collects groups in first-occurrence order, ORDER BY is a
stable sort, and NUMERIC division by zero makes the whole query fail (as it
does in PostgreSQL), which we model with Option.
-/

namespace Dashboard

/-- Collect the distinct elements of a list in order of first occurrence.
Models the set of grouping keys produced by SQL GROUP BY. -/
def firstKeys {κ : Type} [DecidableEq κ] : List κ → List κ
  | [] => []
  | k :: ks => k :: (firstKeys ks).filter (fun x => x ≠ k)

/-- SQL SUM over non-null numeric values of a group. -/
def sumBy {α : Type} (f : α → Rat) (rows : List α) : Rat :=
  (rows.map f).sum

/-- SQL AVG over a group (groups are nonempty in practice; 0 on an empty list). -/
def avgBy {α : Type} (f : α → Rat) (rows : List α) : Rat :=
  if rows.length = 0 then 0 else sumBy f rows / (rows.length : Rat)

/-- SQL COUNT(DISTINCT f) over a group. -/
def countDistinct {α β : Type} [DecidableEq β] (f : α → β) (rows : List α) : Nat :=
  (firstKeys (rows.map f)).length

/-- SQL SUM over nullable values: NULL inputs are skipped and the sum of an
all-null or empty collection is NULL. -/
def sqlSum (l : List (Option Rat)) : Option Rat :=
  match l.filterMap id with
  | [] => none
  | xs => some xs.sum

/-- SQL COALESCE with a numeric default. -/
def coalesceD (x : Option Rat) (d : Rat) : Rat :=
  x.getD d

/-- PostgreSQL NUMERIC division: fails (raises) when the divisor is zero. -/
def safeDiv (a b : Rat) : Option Rat :=
  if b = 0 then none else some (a / b)

/-- PostgreSQL ROUND for NUMERIC rounds half away from zero. -/
def pgRound (x : Rat) : Int :=
  if 0 ≤ x then Rat.floor (x + 1 / 2) else -Rat.floor (-x + 1 / 2)

/-- ROUND(x, n): round to n decimal places, half away from zero. -/
def roundTo (n : Nat) (x : Rat) : Rat :=
  ((pgRound (x * (10 : Rat) ^ n) : Rat)) / (10 : Rat) ^ n

/-- Map a fallible function over a list; the whole computation fails if any
element fails.  Models a query that evaluates an expression per group and
aborts on the first error (for example division by zero). -/
def optMap {α β : Type} (f : α → Option β) : List α → Option (List β)
  | [] => some []
  | a :: as =>
    match f a, optMap f as with
    | some b, some bs => some (b :: bs)
    | _, _ => none

/-- One row of the superstore_order table.  Dates are day numbers, so the SQL
expression ship_date::DATE - order_date::DATE is integer subtraction. -/
structure OrderRow where
  order_id : String
  product_id : String
  customer_id : String
  customer_name : String
  sales : Rat
  profit : Rat
  quantity : Rat
  discount : Rat
  ship_mode : String
  order_date : Int
  ship_date : Int
  deriving DecidableEq, Repr

/-- One row of the superstore_product table; category and sub_category are
nullable. -/
structure ProductRow where
  product_id : String
  category : Option String
  sub_category : Option String
  product_name : String
  deriving DecidableEq, Repr

/-- One row of the superstore_customer table. -/
structure CustomerRow where
  customer_id : String
  customer_name : String
  segment : String
  deriving DecidableEq, Repr

/-- One row of the product_stock table. -/
structure StockRow where
  product_id : String
  product_name : String
  stock : Int
  deriving DecidableEq, Repr

/-- The backing database reached through a successful connection. -/
structure Database where
  orders : List OrderRow
  products : List ProductRow
  customers : List CustomerRow
  stock : List StockRow
  deriving DecidableEq, Repr

/-- INNER JOIN superstore_order with superstore_product on product_id
(lines 73-74 and 107-108 of dashboard.py use JOIN, not LEFT JOIN). -/
def joinOP (orders : List OrderRow) (products : List ProductRow) :
    List (OrderRow × ProductRow) :=
  orders.flatMap fun o =>
    (products.filter (fun p => p.product_id = o.product_id)).map (fun p => (o, p))

/-- INNER JOIN superstore_order with superstore_customer on customer_id
(lines 84-85 of dashboard.py). -/
def joinOC (orders : List OrderRow) (customers : List CustomerRow) :
    List (OrderRow × CustomerRow) :=
  orders.flatMap fun o =>
    (customers.filter (fun c => c.customer_id = o.customer_id)).map (fun c => (o, c))

/-- The rows one stock row contributes to the LEFT JOIN with the orders:
its matching orders, or a single row with null order fields when there is
no match. -/
def stockBlock (orders : List OrderRow) (s : StockRow) :
    List (StockRow × Option OrderRow) :=
  match orders.filter (fun o => o.product_id = s.product_id) with
  | [] => [(s, none)]
  | ms => ms.map (fun o => (s, some o))

/-- LEFT JOIN product_stock with superstore_order on product_id (line 96):
a stock row with no matching order keeps one row with null order fields. -/
def leftJoinSO (stock : List StockRow) (orders : List OrderRow) :
    List (StockRow × Option OrderRow) :=
  stock.flatMap (stockBlock orders)

/-- Result row of the discount_analysis query (lines 101-111). -/
structure DiscRow where
  category : Option String
  sub_category : Option String
  avg_discount_percentage : Rat
  avg_profit_per_item : Rat
  deriving DecidableEq, Repr

/-- Grouping key of the category-level queries. -/
def catKey (r : OrderRow × ProductRow) : Option String × Option String :=
  (r.2.category, r.2.sub_category)

instance : DecidableRel
    (fun (a b : DiscRow) => b.avg_profit_per_item ≤ a.avg_profit_per_item) :=
  fun a b => inferInstanceAs (Decidable (b.avg_profit_per_item ≤ a.avg_profit_per_item))

instance : IsTotal DiscRow
    (fun a b => b.avg_profit_per_item ≤ a.avg_profit_per_item) :=
  ⟨fun a b => le_total b.avg_profit_per_item a.avg_profit_per_item⟩

instance : IsTrans DiscRow
    (fun a b => b.avg_profit_per_item ≤ a.avg_profit_per_item) :=
  ⟨fun _ _ _ h h' => le_trans h' h⟩

/-- The discount_analysis query (lines 101-111): join orders and products,
group by category and sub_category, report ROUND(AVG(discount) * 100, 2) and
ROUND(AVG(profit), 2), ordered by avg_profit_per_item descending. -/
def discount_analysis (orders : List OrderRow) (products : List ProductRow) :
    List DiscRow :=
  let rows := joinOP orders products
  let keys := firstKeys (rows.map catKey)
  let grouped := keys.map fun k =>
    let g := rows.filter (fun r => catKey r = k)
    { category := k.1
      sub_category := k.2
      avg_discount_percentage := roundTo 2 (avgBy (fun r => r.1.discount) g * 100)
      avg_profit_per_item := roundTo 2 (avgBy (fun r => r.1.profit) g) : DiscRow }
  List.insertionSort (fun a b => b.avg_profit_per_item ≤ a.avg_profit_per_item) grouped

/-- Result row of the profit_by_category query (lines 66-77). -/
structure ProfitRow where
  category : Option String
  sub_category : Option String
  total_sales : Rat
  total_profit : Rat
  profit_margin_percentage : Rat
  deriving DecidableEq, Repr

instance : DecidableRel
    (fun (a b : ProfitRow) => b.total_profit ≤ a.total_profit) :=
  fun a b => inferInstanceAs (Decidable (b.total_profit ≤ a.total_profit))

instance : IsTotal ProfitRow (fun a b => b.total_profit ≤ a.total_profit) :=
  ⟨fun a b => le_total b.total_profit a.total_profit⟩

instance : IsTrans ProfitRow (fun a b => b.total_profit ≤ a.total_profit) :=
  ⟨fun _ _ _ h h' => le_trans h' h⟩

/-- The aggregate row computed for one (category, sub_category) group of the
profit_by_category query: fails when SUM(sales) is zero, because PostgreSQL
NUMERIC division by zero aborts the query (line 72). -/
def profitGroupRow (k : Option String × Option String)
    (g : List (OrderRow × ProductRow)) : Option ProfitRow :=
  let ts := sumBy (fun r => r.1.sales) g
  let tp := sumBy (fun r => r.1.profit) g
  (safeDiv tp ts).map fun q =>
    { category := k.1, sub_category := k.2, total_sales := ts,
      total_profit := tp, profit_margin_percentage := roundTo 2 (q * 100) }

/-- The profit_by_category query (lines 66-77): INNER JOIN orders with
products, group by category and sub_category, report SUM(sales), SUM(profit)
and ROUND(SUM(profit) / SUM(sales) * 100, 2), ordered by total_profit
descending.  The whole query fails (none) when any group has zero sales. -/
def profit_by_category (orders : List OrderRow) (products : List ProductRow) :
    Option (List ProfitRow) :=
  let rows := joinOP orders products
  let keys := firstKeys (rows.map catKey)
  (optMap (fun k => profitGroupRow k (rows.filter (fun r => catKey r = k))) keys).map
    (List.insertionSort (fun a b => b.total_profit ≤ a.total_profit))

/-- Result row of the top_customers query (lines 78-89). -/
structure TopCustRow where
  customer_name : String
  segment : String
  total_orders : Nat
  total_spend : Rat
  deriving DecidableEq, Repr

instance : DecidableRel
    (fun (a b : TopCustRow) => b.total_spend ≤ a.total_spend) :=
  fun a b => inferInstanceAs (Decidable (b.total_spend ≤ a.total_spend))

instance : IsTotal TopCustRow (fun a b => b.total_spend ≤ a.total_spend) :=
  ⟨fun a b => le_total b.total_spend a.total_spend⟩

instance : IsTrans TopCustRow (fun a b => b.total_spend ≤ a.total_spend) :=
  ⟨fun _ _ _ h h' => le_trans h' h⟩

/-- The top_customers query (lines 78-89): INNER JOIN orders with customers,
group by customer_name and segment, report COUNT(DISTINCT order_id) and
SUM(sales), ordered by total_spend descending, LIMIT 10. -/
def top_customers (orders : List OrderRow) (customers : List CustomerRow) :
    List TopCustRow :=
  let rows := joinOC orders customers
  let keys := firstKeys (rows.map fun r => (r.2.customer_name, r.2.segment))
  let grouped := keys.map fun k =>
    let g := rows.filter (fun r => (r.2.customer_name, r.2.segment) = k)
    { customer_name := k.1, segment := k.2,
      total_orders := countDistinct (fun r => r.1.order_id) g,
      total_spend := sumBy (fun r => r.1.sales) g : TopCustRow }
  (List.insertionSort (fun a b => b.total_spend ≤ a.total_spend) grouped).take 10

/-- Result row of the inventory_stock query (lines 90-100). -/
structure InvRow where
  product_name : String
  current_stock : Int
  total_units_sold : Rat
  deriving DecidableEq, Repr

instance : DecidableRel
    (fun (a b : InvRow) => a.current_stock ≤ b.current_stock) :=
  fun a b => inferInstanceAs (Decidable (a.current_stock ≤ b.current_stock))

instance : IsTotal InvRow (fun a b => a.current_stock ≤ b.current_stock) :=
  ⟨fun a b => le_total a.current_stock b.current_stock⟩

instance : IsTrans InvRow (fun a b => a.current_stock ≤ b.current_stock) :=
  ⟨fun _ _ _ h h' => le_trans h h'⟩

/-- GROUP BY key of the inventory_stock query (line 97). -/
def invKey (r : StockRow × Option OrderRow) : String × String × Int :=
  (r.1.product_id, r.1.product_name, r.1.stock)

/-- The grouped relation of the inventory_stock query before ORDER BY and
LIMIT: LEFT JOIN stock with orders, group by product_id, product_name and
stock, report COALESCE(SUM(quantity), 0). -/
def inventoryGrouped (stock : List StockRow) (orders : List OrderRow) :
    List InvRow :=
  let rows := leftJoinSO stock orders
  (firstKeys (rows.map invKey)).map fun k =>
    let g := rows.filter (fun r => invKey r = k)
    { product_name := k.2.1, current_stock := k.2.2,
      total_units_sold :=
        coalesceD (sqlSum (g.map (fun r => r.2.map (fun o => o.quantity)))) 0 }

/-- The inventory_stock query (lines 90-100): the grouped relation ordered by
current_stock ascending, LIMIT 15. -/
def inventory_stock (stock : List StockRow) (orders : List OrderRow) :
    List InvRow :=
  (List.insertionSort (fun a b => a.current_stock ≤ b.current_stock)
    (inventoryGrouped stock orders)).take 15

/-- Result row of the shipping_performance query (lines 112-120).  The query
selects only ship_mode, COUNT(order_id) and the rounded average shipping
days; it has no sales column. -/
structure ShipRow where
  ship_mode : String
  total_orders : Nat
  avg_shipping_days : Rat
  deriving DecidableEq, Repr

instance : DecidableRel
    (fun (a b : ShipRow) => a.avg_shipping_days ≤ b.avg_shipping_days) :=
  fun a b => inferInstanceAs (Decidable (a.avg_shipping_days ≤ b.avg_shipping_days))

instance : IsTotal ShipRow (fun a b => a.avg_shipping_days ≤ b.avg_shipping_days) :=
  ⟨fun a b => le_total a.avg_shipping_days b.avg_shipping_days⟩

instance : IsTrans ShipRow (fun a b => a.avg_shipping_days ≤ b.avg_shipping_days) :=
  ⟨fun _ _ _ h h' => le_trans h h'⟩

/-- The shipping_performance query (lines 112-120): group superstore_order by
ship_mode, report COUNT(order_id) and ROUND(AVG(ship_date - order_date), 1),
ordered by avg_shipping_days ascending, no LIMIT. -/
def shipping_performance (orders : List OrderRow) : List ShipRow :=
  let keys := firstKeys (orders.map (fun o => o.ship_mode))
  let grouped := keys.map fun k =>
    let g := orders.filter (fun o => o.ship_mode = k)
    { ship_mode := k, total_orders := g.length,
      avg_shipping_days :=
        roundTo 1 (avgBy (fun o => ((o.ship_date - o.order_date : Int) : Rat)) g) : ShipRow }
  List.insertionSort (fun a b => a.avg_shipping_days ≤ b.avg_shipping_days) grouped

/-- Result row of the premium_customers query (lines 121-132). -/
structure PremRow where
  customer_name : String
  total_transactions : Nat
  total_spent : Rat
  avg_sales_per_item : Rat
  deriving DecidableEq, Repr

instance : DecidableRel
    (fun (a b : PremRow) => b.total_spent ≤ a.total_spent) :=
  fun a b => inferInstanceAs (Decidable (b.total_spent ≤ a.total_spent))

instance : IsTotal PremRow (fun a b => b.total_spent ≤ a.total_spent) :=
  ⟨fun a b => le_total b.total_spent a.total_spent⟩

instance : IsTrans PremRow (fun a b => b.total_spent ≤ a.total_spent) :=
  ⟨fun _ _ _ h h' => le_trans h' h⟩

/-- The per-customer aggregate row of the premium_customers query. -/
def premGroupRow (orders : List OrderRow) (k : String) : PremRow :=
  let g := orders.filter (fun o => o.customer_name = k)
  { customer_name := k,
    total_transactions := countDistinct (fun o => o.order_id) g,
    total_spent := sumBy (fun o => o.sales) g,
    avg_sales_per_item := roundTo 2 (avgBy (fun o => o.sales) g) }

/-- The grouped-and-filtered relation of the premium_customers query before
ORDER BY and LIMIT: group superstore_order by customer_name and keep the
groups satisfying HAVING COUNT(DISTINCT order_id) > 5. -/
def premiumFiltered (orders : List OrderRow) : List PremRow :=
  ((firstKeys (orders.map (fun o => o.customer_name))).map
    (premGroupRow orders)).filter (fun r => 5 < r.total_transactions)

/-- The premium_customers query (lines 121-132): the filtered groups ordered
by total_spent descending, LIMIT 15. -/
def premium_customers (orders : List OrderRow) : List PremRow :=
  (List.insertionSort (fun a b => b.total_spent ≤ a.total_spent)
    (premiumFiltered orders)).take 15

/-- Outcome of executing one SQL query over a connected database: either a
result relation or a raised error. -/
inductive QueryExec (α : Type) where
  | ok (rows : List α)
  | failed (msg : String)
  deriving DecidableEq, Repr

/-- An attempt to reach the database: either it is available or the
connection is refused with an error message. -/
inductive ConnAttempt where
  | avail (db : Database)
  | refused (errmsg : String)
  deriving DecidableEq, Repr

/-- get_connection (lines 14-37): hands back the database on success; on any
connection exception it shows an error message and returns None. -/
def get_connection : ConnAttempt → Option Database
  | .avail db => some db
  | .refused _ => none

/-- The messages shown by get_connection (lines 35-36): on a refused
connection, an error naming the exception plus a configuration hint. -/
def connectionMessages : ConnAttempt → List String
  | .avail _ => []
  | .refused e =>
      ["Database connection error: " ++ e,
       "Pastikan database credentials sudah dikonfigurasi di Streamlit Secrets"]

/-- run_query (lines 40-50): returns the empty relation when the connection
is None, the query result on success, and the empty relation again when the
query raises; it never propagates an exception and never returns None. -/
def run_query {α : Type} (conn : Option Database) (exec : Database → QueryExec α) :
    List α :=
  match conn with
  | none => []
  | some db =>
    match exec db with
    | .ok rows => rows
    | .failed _ => []

/-- Executing the profit_by_category query against a database: a division by
zero surfaces as a query error. -/
def execProfit (db : Database) : QueryExec ProfitRow :=
  match profit_by_category db.orders db.products with
  | some rows => .ok rows
  | none => .failed "division by zero"

/-- Executing the top_customers query against a database. -/
def execTopCustomers (db : Database) : QueryExec TopCustRow :=
  .ok (top_customers db.orders db.customers)

/-- Executing the shipping_performance query against a database. -/
def execShipping (db : Database) : QueryExec ShipRow :=
  .ok (shipping_performance db.orders)

/-- The three report relations the Overview page loads (lines 143-145),
each through run_query on the session connection. -/
def overviewReports (ca : ConnAttempt) :
    List ProfitRow × List TopCustRow × List ShipRow :=
  let conn := get_connection ca
  (run_query conn execProfit, run_query conn execTopCustomers,
   run_query conn execShipping)

/-- The Overview average-margin metric (line 156):
(total_profit / total_sales * 100) if total_sales > 0 else 0. -/
def overview_avg_margin (total_profit total_sales : Rat) : Rat :=
  if 0 < total_sales then total_profit / total_sales * 100 else 0

/-- A concrete order row used by several concrete-instance theorems. -/
def baseOrder : OrderRow :=
  { order_id := "O1", product_id := "P1", customer_id := "C1",
    customer_name := "Alice", sales := 10, profit := 50, quantity := 1,
    discount := 0, ship_mode := "Standard Class", order_date := 0, ship_date := 3 }

/-- The product row matching baseOrder. -/
def baseProduct : ProductRow :=
  { product_id := "P1", category := some "Furniture",
    sub_category := some "Chairs", product_name := "Chair" }

/-- The Profitability row computed from baseOrder and baseProduct. -/
def baseProfitRow : ProfitRow :=
  { category := some "Furniture", sub_category := some "Chairs",
    total_sales := 10, total_profit := 50, profit_margin_percentage := 500 }

/-- An empty database, used for concrete instances. -/
def emptyDb : Database :=
  { orders := [], products := [], customers := [], stock := [] }

/-- The database holding one order whose sales are zero: the profit query
divides by zero on it. -/
def zeroSalesDb : Database :=
  { orders := [{ baseOrder with sales := 0 }], products := [baseProduct],
    customers := [], stock := [] }

/-- A product row with null category and sub_category, matching baseOrder. -/
def nullCatProduct : ProductRow :=
  { product_id := "P1", category := none, sub_category := none,
    product_name := "Widget" }

/-- The Profitability row computed from baseOrder and nullCatProduct: the
null grouping keys form their own group. -/
def nullProfitRow : ProfitRow :=
  { category := none, sub_category := none, total_sales := 10,
    total_profit := 50, profit_margin_percentage := 500 }

/-- An order for a named customer with a given order id and sales amount. -/
def mkOrder (cname oid : String) (s : Rat) : OrderRow :=
  { baseOrder with customer_name := cname, order_id := oid, sales := s }

/-- The Premium Customers fixture: customer A places 3 distinct orders,
B places 6 and C places 7. -/
def exOrders : List OrderRow :=
  [mkOrder "A" "A1" 1, mkOrder "A" "A2" 1, mkOrder "A" "A3" 1,
   mkOrder "B" "B1" 2, mkOrder "B" "B2" 2, mkOrder "B" "B3" 2,
   mkOrder "B" "B4" 2, mkOrder "B" "B5" 2, mkOrder "B" "B6" 2,
   mkOrder "C" "C1" 3, mkOrder "C" "C2" 3, mkOrder "C" "C3" 3,
   mkOrder "C" "C4" 3, mkOrder "C" "C5" 3, mkOrder "C" "C6" 3,
   mkOrder "C" "C7" 3]

/-- A second line item of the same order as baseOrder (same order_id and
ship_mode, different quantity). -/
def dupLineItem : OrderRow :=
  { baseOrder with quantity := 2 }

/-- A stock table with 16 distinct products, stock levels 1 to 16. -/
def stock16 : List StockRow :=
  [{ product_id := "P01", product_name := "N01", stock := 1 },
   { product_id := "P02", product_name := "N02", stock := 2 },
   { product_id := "P03", product_name := "N03", stock := 3 },
   { product_id := "P04", product_name := "N04", stock := 4 },
   { product_id := "P05", product_name := "N05", stock := 5 },
   { product_id := "P06", product_name := "N06", stock := 6 },
   { product_id := "P07", product_name := "N07", stock := 7 },
   { product_id := "P08", product_name := "N08", stock := 8 },
   { product_id := "P09", product_name := "N09", stock := 9 },
   { product_id := "P10", product_name := "N10", stock := 10 },
   { product_id := "P11", product_name := "N11", stock := 11 },
   { product_id := "P12", product_name := "N12", stock := 12 },
   { product_id := "P13", product_name := "N13", stock := 13 },
   { product_id := "P14", product_name := "N14", stock := 14 },
   { product_id := "P15", product_name := "N15", stock := 15 },
   { product_id := "P16", product_name := "N16", stock := 16 }]

end Dashboard

namespace Dashboard

theorem ratFloor_eq (q : Rat) : q.floor = ⌊q⌋ := by
  rw [Rat.floor_def', Rat.floor_def]

theorem mem_firstKeys {κ : Type} [DecidableEq κ] {a : κ} :
    ∀ {l : List κ}, a ∈ firstKeys l ↔ a ∈ l
  | [] => Iff.rfl
  | k :: ks => by
    simp only [firstKeys, List.mem_cons, List.mem_filter,
      mem_firstKeys (l := ks), decide_eq_true_eq]
    by_cases h : a = k <;> simp [h]

theorem nodup_firstKeys {κ : Type} [DecidableEq κ] :
    ∀ l : List κ, (firstKeys l).Nodup
  | [] => List.nodup_nil
  | k :: ks => by
    simp only [firstKeys, List.nodup_cons]
    refine ⟨fun hmem => ?_, (nodup_firstKeys ks).filter _⟩
    have := (List.mem_filter.mp hmem).2
    simp at this

theorem optMap_eq_none {α β : Type} {f : α → Option β} {a : α} :
    ∀ {l : List α}, a ∈ l → f a = none → optMap f l = none
  | x :: xs, h, hf => by
    rcases List.mem_cons.mp h with rfl | h'
    · simp [optMap, hf]
    · cases hx : f x <;> simp [optMap, hx, optMap_eq_none h' hf]

theorem optMap_mem_some {α β : Type} {f : α → Option β} :
    ∀ {l : List α} {bs : List β}, optMap f l = some bs →
      ∀ {b : β}, b ∈ bs → ∃ a ∈ l, f a = some b
  | [], bs, h, b, hb => by
    simp only [optMap, Option.some_inj] at h
    subst h
    cases hb
  | x :: xs, bs, h, b, hb => by
    revert h
    cases hx : f x with
    | none => intro h; exact absurd h (by simp [optMap, hx])
    | some y =>
      cases hxs : optMap f xs with
      | none => intro h; exact absurd h (by simp [optMap, hx, hxs])
      | some ys =>
        intro h
        simp only [optMap, hx, hxs, Option.some_inj] at h
        subst h
        rcases List.mem_cons.mp hb with rfl | hb'
        · exact ⟨x, List.mem_cons_self x xs, hx⟩
        · obtain ⟨a, ha, hfa⟩ := optMap_mem_some hxs hb'
          exact ⟨a, List.mem_cons_of_mem x ha, hfa⟩

theorem optMap_some_of_mem {α β : Type} {f : α → Option β} :
    ∀ {l : List α} {bs : List β}, optMap f l = some bs →
      ∀ {a : α}, a ∈ l → ∃ b ∈ bs, f a = some b
  | [], bs, _, a, ha => absurd ha (List.not_mem_nil a)
  | x :: xs, bs, h, a, ha => by
    revert h
    cases hx : f x with
    | none => intro h; exact absurd h (by simp [optMap, hx])
    | some y =>
      cases hxs : optMap f xs with
      | none => intro h; exact absurd h (by simp [optMap, hx, hxs])
      | some ys =>
        intro h
        simp only [optMap, hx, hxs, Option.some_inj] at h
        subst h
        rcases List.mem_cons.mp ha with rfl | ha'
        · exact ⟨y, List.mem_cons_self y ys, hx⟩
        · obtain ⟨b, hb, hfb⟩ := optMap_some_of_mem hxs ha'
          exact ⟨b, List.mem_cons_of_mem y hb, hfb⟩

theorem optMap_map {α β γ : Type} {f : α → Option β} {g : β → γ} {h : α → γ}
    (hgh : ∀ a b, f a = some b → g b = h a) :
    ∀ {l : List α} {bs : List β}, optMap f l = some bs → bs.map g = l.map h
  | [], bs, hm => by
    simp only [optMap, Option.some_inj] at hm
    subst hm
    rfl
  | x :: xs, bs, hm => by
    revert hm
    cases hx : f x with
    | none => intro hm; exact absurd hm (by simp [optMap, hx])
    | some y =>
      cases hxs : optMap f xs with
      | none => intro hm; exact absurd hm (by simp [optMap, hx, hxs])
      | some ys =>
        intro hm
        simp only [optMap, hx, hxs, Option.some_inj] at hm
        subst hm
        simp only [List.map_cons, optMap_map hgh hxs, hgh x y hx]

/-- Claim C8: in the Discount Impact report, a relation with two items in the
same sub_category, one with discount 0 and profit 50 and one with discount 0.5
and profit 10, yields avg_discount_percentage 25.0 and avg_profit_per_item
30.0 for that sub_category. -/
theorem C8_discount_example :
    discount_analysis
      [baseOrder,
       { baseOrder with order_id := "O2", discount := 1 / 2, profit := 10 }]
      [baseProduct] =
      [{ category := some "Furniture", sub_category := some "Chairs",
         avg_discount_percentage := 25, avg_profit_per_item := 30 }] := by
  simp only [discount_analysis, joinOP, baseOrder, baseProduct, List.flatMap,
    List.filter, List.map, catKey, firstKeys, List.insertionSort, avgBy, sumBy,
    roundTo, pgRound, List.flatten, List.append, List.length, ratFloor_eq]
  norm_num [DiscRow.mk.injEq]

end Dashboard

namespace Dashboard

theorem profitGroupRow_some {k : Option String × Option String}
    {g : List (OrderRow × ProductRow)} {r : ProfitRow}
    (h : profitGroupRow k g = some r) :
    r.category = k.1 ∧ r.sub_category = k.2 ∧
    r.total_sales = sumBy (fun x => x.1.sales) g ∧
    r.total_profit = sumBy (fun x => x.1.profit) g ∧
    r.total_sales ≠ 0 ∧
    r.profit_margin_percentage = roundTo 2 (r.total_profit / r.total_sales * 100) := by
  unfold profitGroupRow safeDiv at h
  by_cases hts : sumBy (fun x => x.1.sales) g = 0
  · simp [hts] at h
  · simp only [hts, if_false, ite_false, Option.map_some'] at h
    have hh := Option.some_inj.mp h
    subst hh
    simp [hts]

/-- Claim C9: run_query never raises and never returns None: on a failed
connection and on a failing query alike it returns an empty result relation,
so a caller cannot distinguish a connection failure from a query failure or
from a genuinely empty result. -/
theorem C9_run_query_never_fails {α : Type} (db : Database)
    (exec : Database → QueryExec α) (msg : String) :
    run_query none exec = [] ∧
    (exec db = QueryExec.failed msg → run_query (some db) exec = []) ∧
    (exec db = QueryExec.ok [] → run_query (some db) exec = []) := by
  refine ⟨rfl, fun h => ?_, fun h => ?_⟩ <;> simp [run_query, h]

theorem C9_witness :
    run_query none execProfit = [] ∧
    run_query (some zeroSalesDb) execProfit = [] ∧
    run_query (some emptyDb) execProfit = [] :=
  ⟨(C9_run_query_never_fails emptyDb execProfit "division by zero").1,
   (C9_run_query_never_fails zeroSalesDb execProfit "division by zero").2.1
     (by norm_num [execProfit, zeroSalesDb, profit_by_category, joinOP, catKey,
       firstKeys, optMap, profitGroupRow, safeDiv, sumBy, baseOrder, baseProduct]),
   (C9_run_query_never_fails emptyDb execProfit "unused").2.2
     (by norm_num [execProfit, emptyDb, profit_by_category, joinOP, firstKeys, optMap])⟩

/-- Claim C7: a query whose execution raises an error in query mode is caught
per-report and yields an empty result relation, while another report on the
same session connection still returns its rows: the view renders with no
data instead of the whole session crashing. -/
theorem C7_query_failure_isolated {α β : Type} (db : Database)
    (exec : Database → QueryExec α) (msg : String)
    (other : Database → QueryExec β) (rows : List β)
    (hfail : exec db = QueryExec.failed msg)
    (hok : other db = QueryExec.ok rows) :
    run_query (some db) exec = [] ∧ run_query (some db) other = rows := by
  constructor <;> simp [run_query, hfail, hok]

theorem C7_witness :
    run_query (some zeroSalesDb) execProfit = [] ∧
    run_query (some zeroSalesDb) execShipping =
      [{ ship_mode := "Standard Class", total_orders := 1, avg_shipping_days := 3 }] :=
  C7_query_failure_isolated zeroSalesDb execProfit "division by zero" execShipping
    [{ ship_mode := "Standard Class", total_orders := 1, avg_shipping_days := 3 }]
    (by norm_num [execProfit, zeroSalesDb, profit_by_category, joinOP, catKey,
       firstKeys, optMap, profitGroupRow, safeDiv, sumBy, baseOrder, baseProduct])
    (by norm_num [execShipping, zeroSalesDb, shipping_performance, firstKeys,
       avgBy, sumBy, roundTo, pgRound, ratFloor_eq, baseOrder,
       List.insertionSort, ShipRow.mk.injEq])

/-- Claim C6 counterexample: with the data source unavailable the session
does not halt: get_connection returns None, and the Overview page still
computes all three of its reports through run_query, each yielding the empty
relation, so further report computation is attempted. -/
theorem C6_counterexample :
    get_connection (ConnAttempt.refused "connection refused") = none ∧
    overviewReports (ConnAttempt.refused "connection refused") = ([], [], []) :=
  ⟨rfl, rfl⟩

/-- Claim C6 (amended): when the connection is refused the user is shown a
message identifying the connection error, get_connection returns None, and
every report run through run_query in that session yields the empty relation;
the session continues instead of halting. -/
theorem C6_connection_refused (e : String) (α : Type)
    (exec : Database → QueryExec α) :
    get_connection (ConnAttempt.refused e) = none ∧
    ("Database connection error: " ++ e) ∈
      connectionMessages (ConnAttempt.refused e) ∧
    run_query (get_connection (ConnAttempt.refused e)) exec = [] ∧
    overviewReports (ConnAttempt.refused e) = ([], [], []) :=
  ⟨rfl, by simp [connectionMessages], rfl, rfl⟩

/-- Claim C1 counterexample: a category group whose sales sum to 0 does not
get profit margin 0: the division makes the whole profit_by_category query
fail, and run_query degrades the Profitability report to the empty relation. -/
theorem C1_counterexample :
    profit_by_category [{ baseOrder with sales := 0 }] [baseProduct] = none ∧
    run_query (some zeroSalesDb) execProfit = [] := by
  constructor
  · norm_num [profit_by_category, joinOP, catKey, firstKeys, optMap,
      profitGroupRow, safeDiv, sumBy, baseOrder, baseProduct]
  · norm_num [run_query, execProfit, zeroSalesDb, profit_by_category, joinOP,
      catKey, firstKeys, optMap, profitGroupRow, safeDiv, sumBy, baseOrder,
      baseProduct]

/-- Claim C1 (amended): every group the Profitability query actually returns
has nonzero total_sales and profit_margin_percentage equal to
ROUND(total_profit / total_sales * 100, 2); a group with zero sales instead
makes the whole query raise a division-by-zero error (see the
counterexample).  The Overview average-margin metric does yield 0 when the
sales total is 0. -/
theorem C1_profit_margin (orders : List OrderRow) (products : List ProductRow)
    (rs : List ProfitRow) (h : profit_by_category orders products = some rs) :
    (∀ r ∈ rs, r.total_sales ≠ 0 ∧
       r.profit_margin_percentage =
         roundTo 2 (r.total_profit / r.total_sales * 100)) ∧
    (∀ tp : Rat, overview_avg_margin tp 0 = 0) := by
  constructor
  · intro r hr
    unfold profit_by_category at h
    rcases Option.map_eq_some'.mp h with ⟨bs, hbs, hrs⟩
    subst hrs
    have hrbs : r ∈ bs := (List.mem_insertionSort _).mp hr
    obtain ⟨k, _, hrow⟩ := optMap_mem_some hbs hrbs
    obtain ⟨_, _, _, _, hts, hm⟩ := profitGroupRow_some hrow
    exact ⟨hts, hm⟩
  · intro tp
    simp [overview_avg_margin]

theorem C1_witness :
    baseProfitRow.total_sales ≠ 0 ∧
    baseProfitRow.profit_margin_percentage =
      roundTo 2 (baseProfitRow.total_profit / baseProfitRow.total_sales * 100) :=
  (C1_profit_margin [baseOrder] [baseProduct] [baseProfitRow]
      (by norm_num [profit_by_category, joinOP, catKey, firstKeys, optMap,
        profitGroupRow, safeDiv, sumBy, roundTo, pgRound, ratFloor_eq,
        baseOrder, baseProduct, baseProfitRow, List.insertionSort,
        ProfitRow.mk.injEq])).1
    baseProfitRow (List.mem_singleton_self _)

end Dashboard

namespace Dashboard

/-- Claim C2 counterexample: an order row whose product_id (or customer_id)
has no match is not kept with null fields: the INNER JOINs drop it, so the
Profitability report over one unmatched order is empty, and so is the Top
Customers report. -/
theorem C2_counterexample :
    profit_by_category [baseOrder] [] = some [] ∧
    top_customers [baseOrder] [] = [] := by
  constructor
  · norm_num [profit_by_category, joinOP, catKey, firstKeys, optMap,
      baseOrder, List.insertionSort]
  · norm_num [top_customers, joinOC, firstKeys, baseOrder, List.insertionSort]

/-- Claim C2 (amended): the Profitability and Top Customers queries use
INNER JOIN semantics: an order row with no matching product (resp. customer)
row contributes nothing to the joined relation and is dropped from the
report.  Null grouping-key values do form their own group: the result rows
of a successful Profitability query carry exactly the distinct
(category, sub_category) values of the joined relation, null keys included. -/
theorem C2_inner_join (orders : List OrderRow) (products : List ProductRow)
    (customers : List CustomerRow) (rs : List ProfitRow)
    (h : profit_by_category orders products = some rs) :
    (rs.map (fun r => (r.category, r.sub_category))).Perm
      (firstKeys ((joinOP orders products).map catKey)) ∧
    (∀ c sc, (c, sc) ∈ (joinOP orders products).map catKey →
       ∃ r ∈ rs, r.category = c ∧ r.sub_category = sc) ∧
    (∀ o ∈ orders, (∀ p ∈ products, p.product_id ≠ o.product_id) →
       ∀ pr : ProductRow, (o, pr) ∉ joinOP orders products) ∧
    (∀ o ∈ orders, (∀ c ∈ customers, c.customer_id ≠ o.customer_id) →
       ∀ cr : CustomerRow, (o, cr) ∉ joinOC orders customers) := by
  unfold profit_by_category at h
  rcases Option.map_eq_some'.mp h with ⟨bs, hbs, hrs⟩
  have hmapkeys : bs.map (fun r => (r.category, r.sub_category)) =
      (firstKeys ((joinOP orders products).map catKey)).map id := by
    refine optMap_map ?_ hbs
    intro k r hkr
    obtain ⟨h1, h2, _⟩ := profitGroupRow_some hkr
    simp [h1, h2]
  have hperm : (rs.map (fun r => (r.category, r.sub_category))).Perm
      (firstKeys ((joinOP orders products).map catKey)) := by
    have hp := (List.perm_insertionSort
      (fun a b : ProfitRow => b.total_profit ≤ a.total_profit) bs).map
      (fun r => (r.category, r.sub_category))
    rw [hmapkeys, List.map_id] at hp
    exact hrs ▸ hp
  refine ⟨hperm, ?_, ?_, ?_⟩
  · intro c sc hmem
    have hin : (c, sc) ∈ rs.map (fun r => (r.category, r.sub_category)) :=
      hperm.mem_iff.mpr (mem_firstKeys.mpr hmem)
    rcases List.mem_map.mp hin with ⟨r, hr, hrr⟩
    exact ⟨r, hr, (Prod.ext_iff.mp hrr).1, (Prod.ext_iff.mp hrr).2⟩
  · intro o _ hnone pr hmem
    rcases List.mem_flatMap.mp hmem with ⟨o2, _, hmem2⟩
    rcases List.mem_map.mp hmem2 with ⟨p, hp, hpair⟩
    obtain ⟨ho2, hppr⟩ := Prod.ext_iff.mp hpair
    dsimp only at ho2 hppr
    subst ho2
    subst hppr
    have hf := List.mem_filter.mp hp
    exact hnone p hf.1 (by simpa using hf.2)
  · intro o _ hnone cr hmem
    rcases List.mem_flatMap.mp hmem with ⟨o2, _, hmem2⟩
    rcases List.mem_map.mp hmem2 with ⟨c, hc, hpair⟩
    obtain ⟨ho2, hccr⟩ := Prod.ext_iff.mp hpair
    dsimp only at ho2 hccr
    subst ho2
    subst hccr
    have hf := List.mem_filter.mp hc
    exact hnone c hf.1 (by simpa using hf.2)

theorem C2_witness :
    ([nullProfitRow].map (fun r => (r.category, r.sub_category))).Perm
      (firstKeys ((joinOP [baseOrder] [nullCatProduct]).map catKey)) :=
  (C2_inner_join [baseOrder] [nullCatProduct] [] [nullProfitRow]
    (by norm_num [profit_by_category, joinOP, catKey, firstKeys, optMap,
      profitGroupRow, safeDiv, sumBy, roundTo, pgRound, ratFloor_eq,
      baseOrder, nullCatProduct, nullProfitRow, List.insertionSort,
      ProfitRow.mk.injEq])).1

end Dashboard

namespace Dashboard

theorem shipping_performance_mem {orders : List OrderRow} {row : ShipRow}
    (h : row ∈ shipping_performance orders) :
    row.ship_mode ∈ orders.map (fun o => o.ship_mode) ∧
    row.total_orders =
      (orders.filter (fun o => o.ship_mode = row.ship_mode)).length ∧
    row.avg_shipping_days =
      roundTo 1 (avgBy (fun o => ((o.ship_date - o.order_date : Int) : Rat))
        (orders.filter (fun o => o.ship_mode = row.ship_mode))) := by
  unfold shipping_performance at h
  have h2 := (List.mem_insertionSort _).mp h
  rcases List.mem_map.mp h2 with ⟨k, hk, hrow⟩
  subst hrow
  exact ⟨mem_firstKeys.mp hk, rfl, rfl⟩

theorem shipping_performance_coverage {orders : List OrderRow} {m : String}
    (h : m ∈ orders.map (fun o => o.ship_mode)) :
    ∃ row ∈ shipping_performance orders, row.ship_mode = m ∧
      row.total_orders = (orders.filter (fun o => o.ship_mode = m)).length ∧
      row.avg_shipping_days =
        roundTo 1 (avgBy (fun o => ((o.ship_date - o.order_date : Int) : Rat))
          (orders.filter (fun o => o.ship_mode = m))) := by
  refine ⟨{ ship_mode := m,
            total_orders := (orders.filter (fun o => o.ship_mode = m)).length,
            avg_shipping_days :=
              roundTo 1 (avgBy (fun o => ((o.ship_date - o.order_date : Int) : Rat))
                (orders.filter (fun o => o.ship_mode = m))) }, ?_, rfl, rfl, rfl⟩
  unfold shipping_performance
  refine (List.mem_insertionSort _).mpr (List.mem_map.mpr ⟨m, mem_firstKeys.mpr h, rfl⟩)

/-- Claim C3 counterexample: the Shipping Summary result carries no
sum(sales) aggregate: two order relations that differ only in sales produce
the identical report, although their sales sums differ. -/
theorem C3_counterexample :
    shipping_performance [baseOrder] =
      shipping_performance [{ baseOrder with sales := 999 }] ∧
    sumBy (fun o => o.sales) [baseOrder] ≠
      sumBy (fun o => o.sales) [{ baseOrder with sales := 999 }] := by
  constructor
  · norm_num [shipping_performance, firstKeys, avgBy, sumBy, roundTo, pgRound,
      ratFloor_eq, baseOrder, List.insertionSort]
  · norm_num [sumBy, baseOrder]

/-- Claim C3 (amended): the Shipping Summary groups orders by ship_mode and
reports count(order_id) and mean(shipping_days) rounded to 1 decimal place,
sorted by the mean ascending with no row limit and one row per distinct
ship_mode; it does not compute sum(sales) (see the counterexample). -/
theorem C3_shipping (orders : List OrderRow) :
    List.Sorted (fun a b : ShipRow => a.avg_shipping_days ≤ b.avg_shipping_days)
      (shipping_performance orders) ∧
    (shipping_performance orders).length =
      (firstKeys (orders.map (fun o => o.ship_mode))).length ∧
    (∀ row ∈ shipping_performance orders,
       row.total_orders =
         (orders.filter (fun o => o.ship_mode = row.ship_mode)).length ∧
       row.avg_shipping_days =
         roundTo 1 (avgBy (fun o => ((o.ship_date - o.order_date : Int) : Rat))
           (orders.filter (fun o => o.ship_mode = row.ship_mode)))) ∧
    (∀ m ∈ orders.map (fun o => o.ship_mode),
       ∃ row ∈ shipping_performance orders, row.ship_mode = m) := by
  refine ⟨List.sorted_insertionSort _ _, ?_, ?_, ?_⟩
  · unfold shipping_performance
    rw [(List.perm_insertionSort _ _).length_eq, List.length_map]
  · intro row hrow
    exact (shipping_performance_mem hrow).2
  · intro m hm
    obtain ⟨row, hrow, hmode, _⟩ := shipping_performance_coverage hm
    exact ⟨row, hrow, hmode⟩

theorem C3_witness :
    List.Sorted (fun a b : ShipRow => a.avg_shipping_days ≤ b.avg_shipping_days)
      (shipping_performance [baseOrder]) :=
  (C3_shipping [baseOrder]).1

end Dashboard

namespace Dashboard

theorem firstKeys_of_nodup {κ : Type} [DecidableEq κ] :
    ∀ {l : List κ}, l.Nodup → firstKeys l = l
  | [], _ => rfl
  | k :: ks, h => by
    have h' := List.nodup_cons.mp h
    rw [firstKeys, firstKeys_of_nodup h'.2, List.filter_eq_self.mpr]
    intro x hx
    simp only [decide_eq_true_eq]
    intro hxk
    exact h'.1 (hxk ▸ hx)

theorem countDistinct_of_nodup {α β : Type} [DecidableEq β] {f : α → β}
    {l : List α} (h : (l.map f).Nodup) : countDistinct f l = l.length := by
  unfold countDistinct
  rw [firstKeys_of_nodup h, List.length_map]

theorem premium_customers_mem {orders : List OrderRow} {r : PremRow}
    (hr : r ∈ premium_customers orders) :
    5 < r.total_transactions ∧
    r.total_transactions = countDistinct (fun o => o.order_id)
      (orders.filter (fun o => o.customer_name = r.customer_name)) ∧
    r.total_spent = sumBy (fun o => o.sales)
      (orders.filter (fun o => o.customer_name = r.customer_name)) := by
  unfold premium_customers at hr
  have h1 := List.take_subset _ _ hr
  have h2 := (List.mem_insertionSort _).mp h1
  unfold premiumFiltered at h2
  have h3 := List.mem_filter.mp h2
  rcases List.mem_map.mp h3.1 with ⟨k, _, hrow⟩
  subst hrow
  exact ⟨by simpa using h3.2, rfl, rfl⟩

/-- Claim C5: the Premium Customers report keeps exactly the customers whose
count of distinct order_id exceeds 5, sorts them by total spend descending,
and keeps at most the top 15; on the fixture where A places 3 distinct
orders, B places 6 and C places 7, the result is C then B and excludes A. -/
theorem C5_premium (orders : List OrderRow) :
    (∀ k ∈ firstKeys (orders.map (fun o => o.customer_name)),
       (premGroupRow orders k ∈ premiumFiltered orders ↔
         5 < countDistinct (fun o => o.order_id)
               (orders.filter (fun o => o.customer_name = k)))) ∧
    (∀ r ∈ premium_customers orders,
       5 < r.total_transactions ∧
       r.total_transactions = countDistinct (fun o => o.order_id)
         (orders.filter (fun o => o.customer_name = r.customer_name)) ∧
       r.total_spent = sumBy (fun o => o.sales)
         (orders.filter (fun o => o.customer_name = r.customer_name))) ∧
    List.Sorted (fun a b : PremRow => b.total_spent ≤ a.total_spent)
      (premium_customers orders) ∧
    (premium_customers orders).length ≤ 15 ∧
    (premium_customers exOrders).map (fun r => r.customer_name) = ["C", "B"] := by
  refine ⟨?_, fun r hr => premium_customers_mem hr, ?_, ?_, ?_⟩
  · intro k hk
    constructor
    · intro hmem
      have h := (List.mem_filter.mp hmem).2
      simpa using h
    · intro h5
      refine List.mem_filter.mpr ⟨List.mem_map_of_mem _ hk, by simpa using h5⟩
  · exact List.Pairwise.sublist (List.take_sublist _ _)
      (List.sorted_insertionSort _ _)
  · show ((List.insertionSort (fun a b : PremRow => b.total_spent ≤ a.total_spent)
      (premiumFiltered orders)).take 15).length ≤ 15
    rw [List.length_take]
    exact min_le_left _ _
  · have hfA : exOrders.filter (fun o => o.customer_name = "A") =
        [mkOrder "A" "A1" 1, mkOrder "A" "A2" 1, mkOrder "A" "A3" 1] := by
      simp [exOrders, mkOrder, baseOrder, List.filter_cons, List.filter_nil,
        String.reduceEq]
    have hfB : exOrders.filter (fun o => o.customer_name = "B") =
        [mkOrder "B" "B1" 2, mkOrder "B" "B2" 2, mkOrder "B" "B3" 2,
         mkOrder "B" "B4" 2, mkOrder "B" "B5" 2, mkOrder "B" "B6" 2] := by
      simp [exOrders, mkOrder, baseOrder, List.filter_cons, List.filter_nil,
        String.reduceEq]
    have hfC : exOrders.filter (fun o => o.customer_name = "C") =
        [mkOrder "C" "C1" 3, mkOrder "C" "C2" 3, mkOrder "C" "C3" 3,
         mkOrder "C" "C4" 3, mkOrder "C" "C5" 3, mkOrder "C" "C6" 3,
         mkOrder "C" "C7" 3] := by
      simp [exOrders, mkOrder, baseOrder, List.filter_cons, List.filter_nil,
        String.reduceEq]
    have hA : premGroupRow exOrders "A" =
        { customer_name := "A", total_transactions := 3, total_spent := 3,
          avg_sales_per_item := 1 } := by
      simp only [premGroupRow]
      rw [hfA, countDistinct_of_nodup (by
        simp [mkOrder, baseOrder, String.reduceEq])]
      norm_num [sumBy, avgBy, roundTo, pgRound, ratFloor_eq, mkOrder,
        baseOrder, PremRow.mk.injEq, List.map_cons, List.map_nil,
        List.sum_cons, List.sum_nil]
    have hB : premGroupRow exOrders "B" =
        { customer_name := "B", total_transactions := 6, total_spent := 12,
          avg_sales_per_item := 2 } := by
      simp only [premGroupRow]
      rw [hfB, countDistinct_of_nodup (by
        simp [mkOrder, baseOrder, String.reduceEq])]
      norm_num [sumBy, avgBy, roundTo, pgRound, ratFloor_eq, mkOrder,
        baseOrder, PremRow.mk.injEq, List.map_cons, List.map_nil,
        List.sum_cons, List.sum_nil]
    have hC : premGroupRow exOrders "C" =
        { customer_name := "C", total_transactions := 7, total_spent := 21,
          avg_sales_per_item := 3 } := by
      simp only [premGroupRow]
      rw [hfC, countDistinct_of_nodup (by
        simp [mkOrder, baseOrder, String.reduceEq])]
      norm_num [sumBy, avgBy, roundTo, pgRound, ratFloor_eq, mkOrder,
        baseOrder, PremRow.mk.injEq, List.map_cons, List.map_nil,
        List.sum_cons, List.sum_nil]
    have hkeys : firstKeys (exOrders.map (fun o => o.customer_name)) =
        ["A", "B", "C"] := by
      simp [exOrders, mkOrder, baseOrder, firstKeys, List.map_cons,
        List.map_nil, List.filter_cons, List.filter_nil, String.reduceEq]
    have hpf : premiumFiltered exOrders =
        [{ customer_name := "B", total_transactions := 6, total_spent := 12,
           avg_sales_per_item := 2 },
         { customer_name := "C", total_transactions := 7, total_spent := 21,
           avg_sales_per_item := 3 }] := by
      unfold premiumFiltered
      rw [hkeys]
      simp only [List.map_cons, List.map_nil, hA, hB, hC]
      simp [List.filter_cons, List.filter_nil]
    show ((List.insertionSort (fun a b : PremRow => b.total_spent ≤ a.total_spent)
      (premiumFiltered exOrders)).take 15).map (fun r => r.customer_name) = ["C", "B"]
    rw [hpf]
    norm_num [List.insertionSort, List.orderedInsert, List.take]

theorem C5_witness :
    (premium_customers exOrders).map (fun r => r.customer_name) = ["C", "B"] :=
  (C5_premium exOrders).2.2.2.2

end Dashboard

namespace Dashboard

theorem length_filter_split {α : Type} (p : α → Prop) [DecidablePred p] :
    ∀ l : List α, l.length =
      (l.filter (fun a => p a)).length + (l.filter (fun a => ¬ p a)).length
  | [] => rfl
  | a :: l => by
    by_cases h : p a <;>
      simp [List.filter_cons, h, length_filter_split p l] <;> omega

theorem top_customers_mem {orders : List OrderRow}
    {customers : List CustomerRow} {r : TopCustRow}
    (hr : r ∈ top_customers orders customers) :
    r.total_orders = countDistinct (fun x => x.1.order_id)
      ((joinOC orders customers).filter
        (fun x => (x.2.customer_name, x.2.segment) = (r.customer_name, r.segment))) := by
  unfold top_customers at hr
  have h1 := List.take_subset _ _ hr
  have h2 := (List.mem_insertionSort _).mp h1
  rcases List.mem_map.mp h2 with ⟨k, _, hrow⟩
  subst hrow
  rfl

/-- Claim C10: in the Shipping Performance report, total_orders per
ship_mode counts order rows (line items): the count splits as the number of
rows carrying any given order_id plus the number of rows carrying other ids,
so an order_id occurring on k rows of the mode contributes k.  The Premium
Customers and Top Customers reports instead count distinct order ids.  On a
relation where order O1 has two line items of the same mode, shipping
reports total_orders 2 while the distinct count is 1. -/
theorem C10_shipping_counts_line_items (orders : List OrderRow)
    (customers : List CustomerRow) (m oid : String)
    (h : m ∈ orders.map (fun o => o.ship_mode)) :
    (∃ row ∈ shipping_performance orders, row.ship_mode = m ∧
       row.total_orders =
         ((orders.filter (fun o => o.ship_mode = m)).filter
             (fun o => o.order_id = oid)).length +
         ((orders.filter (fun o => o.ship_mode = m)).filter
             (fun o => ¬ o.order_id = oid)).length) ∧
    (∀ r ∈ premium_customers orders,
       r.total_transactions = countDistinct (fun o => o.order_id)
         (orders.filter (fun o => o.customer_name = r.customer_name))) ∧
    (∀ r ∈ top_customers orders customers,
       r.total_orders = countDistinct (fun x => x.1.order_id)
         ((joinOC orders customers).filter
           (fun x => (x.2.customer_name, x.2.segment) = (r.customer_name, r.segment)))) ∧
    (shipping_performance [baseOrder, dupLineItem]).map
      (fun r => r.total_orders) = [2] ∧
    countDistinct (fun o => o.order_id) [baseOrder, dupLineItem] = 1 := by
  refine ⟨?_, fun r hr => (premium_customers_mem hr).2.1,
    fun r hr => top_customers_mem hr, by decide, by decide⟩
  obtain ⟨row, hrow, hmode, hcount, _⟩ := shipping_performance_coverage h
  exact ⟨row, hrow, hmode, by rw [hcount]; exact length_filter_split _ _⟩

theorem C10_witness :
    (shipping_performance [baseOrder, dupLineItem]).map
      (fun r => r.total_orders) = [2] ∧
    countDistinct (fun o => o.order_id) [baseOrder, dupLineItem] = 1 :=
  ⟨(C10_shipping_counts_line_items [baseOrder, dupLineItem] [] "Standard Class"
      "O1" (by simp [baseOrder, dupLineItem])).2.2.2.1,
   (C10_shipping_counts_line_items [baseOrder, dupLineItem] [] "Standard Class"
      "O1" (by simp [baseOrder, dupLineItem])).2.2.2.2⟩

end Dashboard

namespace Dashboard

theorem sqlSum_all_none {l : List (Option Rat)} (h : ∀ x ∈ l, x = none) :
    sqlSum l = none := by
  have h0 : List.filterMap id l = [] := List.filterMap_eq_nil_iff.mpr h
  unfold sqlSum
  rw [h0]

theorem stockBlock_ne_nil (orders : List OrderRow) (s : StockRow) :
    stockBlock orders s ≠ [] := by
  unfold stockBlock
  cases hf : orders.filter (fun o => o.product_id = s.product_id) with
  | nil => simp
  | cons a l => simp

theorem stockBlock_fst {orders : List OrderRow} {s : StockRow}
    {x : StockRow × Option OrderRow} (hx : x ∈ stockBlock orders s) :
    x.1 = s := by
  unfold stockBlock at hx
  revert hx
  cases hf : orders.filter (fun o => o.product_id = s.product_id) with
  | nil =>
    intro hx
    rcases List.mem_singleton.mp hx with rfl
    rfl
  | cons a l =>
    intro hx
    rcases List.mem_map.mp hx with ⟨o, _, hrow⟩
    rw [← hrow]

theorem stockBlock_no_match {orders : List OrderRow} {s : StockRow}
    (h : ∀ o ∈ orders, o.product_id ≠ s.product_id) :
    stockBlock orders s = [(s, none)] := by
  unfold stockBlock
  rw [List.filter_eq_nil_iff.mpr (fun o ho => by simpa using h o ho)]

theorem firstKeys_append_const {κ : Type} [DecidableEq κ] {k : κ} :
    ∀ {l : List κ}, l ≠ [] → (∀ x ∈ l, x = k) → ∀ tail : List κ,
      firstKeys (l ++ tail) = k :: (firstKeys tail).filter (fun x => x ≠ k)
  | [], h, _, _ => absurd rfl h
  | [a], _, hall, tail => by
    have ha : a = k := hall a (by simp)
    subst ha
    simp [firstKeys]
  | a :: b :: l, _, hall, tail => by
    have ha : a = k := hall a (by simp)
    subst ha
    rw [List.cons_append, firstKeys,
      firstKeys_append_const (l := b :: l) (by simp)
        (fun x hx => hall x (List.mem_cons_of_mem _ hx)) tail]
    simp [List.filter_filter, List.filter_cons]

theorem inventory_keys (orders : List OrderRow) :
    ∀ {stock : List StockRow}, (stock.map (fun s => s.product_id)).Nodup →
      firstKeys ((leftJoinSO stock orders).map invKey) =
        stock.map (fun s => (s.product_id, s.product_name, s.stock))
  | [], _ => rfl
  | s :: rest, h => by
    have h' : (∀ x ∈ rest, ¬ x.product_id = s.product_id) ∧
        (rest.map (fun s => s.product_id)).Nodup := by simpa using h
    have hrest := inventory_keys orders h'.2
    have hconst : ∀ x ∈ (stockBlock orders s).map invKey,
        x = (s.product_id, s.product_name, s.stock) := by
      intro x hx
      rcases List.mem_map.mp hx with ⟨y, hy, hrow⟩
      rw [← hrow]
      unfold invKey
      rw [stockBlock_fst hy]
    have hne : (stockBlock orders s).map invKey ≠ [] := by
      intro hnil
      exact stockBlock_ne_nil orders s (List.map_eq_nil_iff.mp hnil)
    show firstKeys (((stockBlock orders s) ++ leftJoinSO rest orders).map invKey) = _
    rw [List.map_append, firstKeys_append_const hne hconst, hrest,
      List.filter_eq_self.mpr, List.map_cons]
    intro x hx
    rcases List.mem_map.mp hx with ⟨t, ht, hrow⟩
    simp only [decide_eq_true_eq]
    intro hxk
    have htid : t.product_id = s.product_id := by
      have := congrArg Prod.fst (hrow.trans hxk)
      simpa using this
    exact h'.1 t ht htid

/-- Claim C4 counterexample: with 16 products in the stock table the
Inventory report keeps only the 15 lowest-stock rows, so the product N16
does not appear at all: not every stock product appears in the result. -/
theorem C4_counterexample :
    stock16.length = 16 ∧
    (inventory_stock stock16 []).length = 15 ∧
    "N16" ∉ (inventory_stock stock16 []).map (fun r => r.product_name) := by
  decide

/-- Claim C4 (amended): in the grouped relation of the Inventory query,
before the LIMIT, every product of the stock table appears exactly once
(the group keys are exactly the stock rows), and total_units_sold is 0, not
missing, for a product with no matching orders; the final result is the
at-most-15 lowest-stock rows of that relation, so with more than 15 stock
products some products are dropped (see the counterexample). -/
theorem C4_inventory (stock : List StockRow) (orders : List OrderRow)
    (h : (stock.map (fun s => s.product_id)).Nodup) :
    firstKeys ((leftJoinSO stock orders).map invKey) =
      stock.map (fun s => (s.product_id, s.product_name, s.stock)) ∧
    (inventoryGrouped stock orders).length = stock.length ∧
    (∀ s ∈ stock, ∃ r ∈ inventoryGrouped stock orders,
       r.product_name = s.product_name ∧ r.current_stock = s.stock ∧
       ((∀ o ∈ orders, o.product_id ≠ s.product_id) →
         r.total_units_sold = 0)) ∧
    List.Sorted (fun a b : InvRow => a.current_stock ≤ b.current_stock)
      (inventory_stock stock orders) ∧
    (inventory_stock stock orders).length = min 15 stock.length ∧
    (∀ r ∈ inventory_stock stock orders, r ∈ inventoryGrouped stock orders) := by
  have hkeys := inventory_keys orders h
  have hglen : (inventoryGrouped stock orders).length = stock.length := by
    unfold inventoryGrouped
    rw [List.length_map, hkeys, List.length_map]
  refine ⟨hkeys, hglen, ?_, ?_, ?_, ?_⟩
  · intro s hs
    have hkmem : (s.product_id, s.product_name, s.stock) ∈
        firstKeys ((leftJoinSO stock orders).map invKey) := by
      rw [hkeys]
      exact List.mem_map_of_mem _ hs
    refine ⟨_, List.mem_map_of_mem _ hkmem, rfl, rfl, ?_⟩
    intro hnm
    show coalesceD (sqlSum (((leftJoinSO stock orders).filter
      (fun r => invKey r = (s.product_id, s.product_name, s.stock))).map
        (fun r => r.2.map (fun o => o.quantity)))) 0 = 0
    rw [sqlSum_all_none]
    · rfl
    · intro x hx
      rcases List.mem_map.mp hx with ⟨r, hr, hrow⟩
      have hrf := List.mem_filter.mp hr
      rcases List.mem_flatMap.mp hrf.1 with ⟨t, _, hrt⟩
      have hr1 : r.1 = t := stockBlock_fst hrt
      have hkey : invKey r = (s.product_id, s.product_name, s.stock) := by
        simpa using hrf.2
      have htid : t.product_id = s.product_id := by
        have := congrArg (fun p => p.1) hkey
        unfold invKey at this
        simpa [hr1] using this
      have hblock : stockBlock orders t = [(t, none)] :=
        stockBlock_no_match (fun o ho => htid ▸ hnm o ho)
      rw [hblock] at hrt
      rcases List.mem_singleton.mp hrt with rfl
      simpa using hrow.symm
  · exact List.Pairwise.sublist (List.take_sublist _ _)
      (List.sorted_insertionSort _ _)
  · show ((List.insertionSort (fun a b : InvRow => a.current_stock ≤ b.current_stock)
      (inventoryGrouped stock orders)).take 15).length = min 15 stock.length
    rw [List.length_take, (List.perm_insertionSort _ _).length_eq, hglen]
  · intro r hr
    have h1 := List.take_subset _ _ hr
    exact (List.mem_insertionSort _).mp h1

theorem C4_witness :
    (inventoryGrouped stock16 []).length = stock16.length :=
  (C4_inventory stock16 [] (by simp [stock16, String.reduceEq])).2.1

end Dashboard
